import Mathlib

/-!
Verification development for the scene-management core of a 360-degree /
stereoscopic panorama viewer (source file: src/player/Entities/Scene.ts).

The embedding below transcribes the lifecycle logic of the `Scene` class:
creation of paired per-eye rendering resources (`onCreate` / `createLayer`),
mode-dependent attachment (`onAttach`), detachment (`onDetatch`), teardown
(`onDestroy`), the `projectionCenter` and `eye` accessors, and JSON
deserialization (`fromJSON`).  External rendering-engine objects (views,
layers, sources, texture stores, hotspot containers, the display stage) are
modelled by their observable state as manipulated by this file: a view keeps
its limiter, projection-center x-offset and parameters; a layer keeps its
rectangle effect; the stage keeps which of the two layers are mounted.
Accessing a null/unset resource in the TypeScript throws; the embedding
returns `none` in these cases.  Numbers are modelled as rationals.
-/

namespace VRPlayer

/-- Eye tag used for the per-eye resources. -/
inductive Eye
  | left
  | right
deriving DecidableEq, Repr

/-- The string name of an eye, as used in tile URLs. -/
def eyeName : Eye → String
  | Eye.left => "left"
  | Eye.right => "right"

/-- Opaque handles for the two view limiters built in Scene.ts lines 28-32:
`Scene.PANORAMA_LIMITER` (traditional limiter at 120 degrees, wide FOV) and
`Scene.STEREOSCOPIC_LIMITER` (traditional limiter at 90 degrees, narrow FOV).
Their internal behavior belongs to the external rendering engine; the code
only ever installs one of the two, so an enumeration suffices. -/
inductive Limiter
  | panorama
  | stereoscopic
deriving DecidableEq, Repr

/-- Modelled from the spec: `Vector4` (src/player/Math/Vector4 is not under
src/) is a plain 4-component vector.  For view parameters the components are
(yaw, pitch, roll, field-of-view); for projection centers the first two are
the (x, y) offset.  The two-argument construction `new Vector4(0, 0)` is
modelled by the defaults for the last two components. -/
structure Vector4 where
  x : ℚ
  y : ℚ
  z : ℚ := 0
  w : ℚ := 0
deriving DecidableEq, Repr

/-- Modelled from the spec: the yaw component of a view-parameter vector is
its first component. -/
def Vector4.yaw (v : Vector4) : ℚ := v.x

/-- Modelled from the spec: the pitch component of a view-parameter vector is
its second component. -/
def Vector4.pitch (v : Vector4) : ℚ := v.y

/-- Modelled from the spec: `PairSet<T>` (src/player/Utils/PairSet is not
under src/) is a fixed two-slot container with named slots `primary`
(conventionally the left eye) and `secondary` (the right eye), each possibly
unset. -/
structure PairSet (T : Type) where
  primary : Option T := none
  secondary : Option T := none
deriving DecidableEq, Repr

/-- The empty pair: both slots unset (result of `new PairSet()`). -/
def PairSet.empty {T : Type} : PairSet T := { primary := none, secondary := none }

/-- The occupied slots of a pair, in slot order (primary then secondary). -/
def PairSet.toList {T : Type} (p : PairSet T) : List T :=
  p.primary.toList ++ p.secondary.toList

/-- Modelled from the spec: `PairSet.pair(op)` applies `op` to each occupied
slot, primary then secondary, skipping unset slots.  Rendered here in trace
form: the list of the results of `op`, in application order. -/
def PairSet.pair {T E : Type} (p : PairSet T) (op : T → E) : List E :=
  p.toList.map op

/-- A rectangle effect for a compositing layer.  `relativeX` is optional
because `onAttach` installs rectangle literals carrying only a width
(Scene.ts lines 119 and 124). -/
structure Rect where
  relativeWidth : ℚ
  relativeX : Option ℚ := none
deriving DecidableEq, Repr

/-- Observable state of an external `RectilinearView`: the installed limiter,
the horizontal projection-center offset (0 on construction), and the view
parameters. -/
structure View where
  limiter : Limiter
  projectionCenterX : ℚ
  parameters : Vector4
deriving DecidableEq, Repr

/-- Observable state of an external `ImageUrlSource`: the tile URL template
and the cube-map preview URL it was created from. -/
structure Source where
  tileUrl : String
  previewUrl : String
deriving DecidableEq, Repr

/-- Observable state of an external `TextureStore`: the source it is bound
to and the levels of the shared geometry it serves. -/
structure TextureStore where
  source : Source
  geometryLevels : List ℚ
deriving DecidableEq, Repr

/-- Observable state of an external compositing `Layer`: its source and its
rectangle effect. -/
structure Layer where
  source : Source
  rect : Rect
deriving DecidableEq, Repr

/-- A hotspot descriptor: a renderable node reference (opaque, modelled by a
number) and its anchor position. -/
structure Hotspot where
  node : ℕ
  position : Vector4
deriving DecidableEq, Repr

/-- Observable state of the external `HotspotContainer`: visibility, the
layer rectangle it is currently anchored to, and the overlay nodes created
in it (node reference and anchor position, in creation order). -/
structure HotspotContainer where
  visible : Bool
  rect : Rect
  hotspots : List (ℕ × Vector4)
deriving DecidableEq, Repr

/-- Observable state of the external display stage: which of the scene's two
layers are currently mounted.  `addLayer` mounts a layer; `removeLayer` on a
layer that is not mounted throws in the external engine, which the embedding
renders as `none`. -/
structure Stage where
  primaryMounted : Bool
  secondaryMounted : Bool
deriving DecidableEq, Repr

/-- A stage with neither layer mounted. -/
def Stage.empty : Stage := { primaryMounted := false, secondaryMounted := false }

/-- `stage.removeLayer(layers.primary)`: throws (`none`) when the primary
layer is not mounted. -/
def Stage.removeLayerPrimary (st : Stage) : Option Stage :=
  if st.primaryMounted then some { st with primaryMounted := false } else none

/-- `stage.hasLayer(layers.secondary)`. -/
def Stage.hasLayerSecondary (st : Stage) : Bool := st.secondaryMounted

/-- The interaction mode read from the player at attach time: panorama, or
stereoscopic with a declared dominant eye. -/
inductive Mode
  | panorama
  | stereoscopic (dominantEye : Eye)
deriving DecidableEq, Repr

/-- The mutable state of a `Scene` instance (Scene.ts lines 48-65):
descriptor fields, then the nullable resource references.  A `none` resource
field models the JavaScript field being null/undefined. -/
structure Scene where
  id : String
  name : String
  levels : List ℚ
  faceSize : ℚ
  initialViewParameters : Vector4
  linkHotspots : List Hotspot
  infoHotspots : List Hotspot
  geometry : Option (List ℚ) := none
  projectionCenterStored : Option Vector4 := none
  views : Option (PairSet View) := none
  hotspotContainer : Option HotspotContainer := none
  sources : Option (PairSet Source) := some PairSet.empty
  textureStores : Option (PairSet TextureStore) := some PairSet.empty
  layers : Option (PairSet Layer) := some PairSet.empty
  cancelTweening : Option ℕ := none
deriving DecidableEq, Repr

/-- The wide-FOV limiter installed for panorama display. -/
def Scene.PANORAMA_LIMITER : Limiter := Limiter.panorama

/-- The narrow-FOV limiter installed for stereoscopic display. -/
def Scene.STEREOSCOPIC_LIMITER : Limiter := Limiter.stereoscopic

/-- The base-path resolution inside `createLayer` (Scene.ts lines 227-228):
`path = path ? 'assets/tiles' : path + 'tiles'`, where `path` is the result
of `FS.path` on the configured stage path and the truthiness of a JavaScript
string is its nonemptiness. -/
def createLayerBasePath (path : String) : String :=
  if path = "" then path ++ "tiles" else "assets/tiles"

/-- The `ImageUrlSource` built by `createLayer` (Scene.ts lines 229-232):
tile template `{basePath}/{sceneId}/{eye}/z/f/y/x.jpg` (with the z, f, y, x
placeholders) and preview URL `{basePath}/{sceneId}/{eye}/preview.jpg`. -/
def createLayerSource (path id : String) (eye : Eye) : Source :=
  let base := createLayerBasePath path
  { tileUrl := base ++ "/" ++ id ++ "/" ++ eyeName eye ++ "/{z}/{f}/{y}/{x}.jpg"
  , previewUrl := base ++ "/" ++ id ++ "/" ++ eyeName eye ++ "/preview.jpg" }

/-- The per-eye resources built by one `createLayer` call (Scene.ts lines
226-252): the source, a texture store bound to that source and the shared
geometry, and a layer with the given rectangle effect. -/
def createLayerParts (path id : String) (geometry : List ℚ) (eye : Eye)
    (rect : Rect) : Source × TextureStore × Layer :=
  let source := createLayerSource path id eye
  (source, { source := source, geometryLevels := geometry },
   { source := source, rect := rect })

/-- `onCreate` (Scene.ts lines 82-108): builds the shared geometry from the
levels, resets the stored projection center to (0, 0), builds the primary
view with the panorama limiter and the secondary view with the stereoscopic
limiter (both from `initialViewParameters`), creates the left-eye (primary)
and right-eye (secondary) sources/stores/layers via `createLayer` with
half-frame rectangles, and creates the hotspot container anchored to the
primary layer's rectangle, populated with the link hotspots then the info
hotspots.  `fsPath` is the result of `FS.path(player.stagePath)`. -/
def Scene.onCreate (s : Scene) (fsPath : String) : Scene :=
  let geometry := s.levels
  let viewPrimary : View :=
    { limiter := Scene.PANORAMA_LIMITER, projectionCenterX := 0
    , parameters := s.initialViewParameters }
  let viewSecondary : View :=
    { limiter := Scene.STEREOSCOPIC_LIMITER, projectionCenterX := 0
    , parameters := s.initialViewParameters }
  let left := createLayerParts fsPath s.id geometry Eye.left
    { relativeWidth := 1/2, relativeX := some 0 }
  let right := createLayerParts fsPath s.id geometry Eye.right
    { relativeWidth := 1/2, relativeX := some (1/2) }
  let hc : HotspotContainer :=
    { visible := true
    , rect := left.2.2.rect
    , hotspots := (s.linkHotspots ++ s.infoHotspots).map
        (fun h => (h.node, h.position)) }
  { s with
    geometry := some geometry
  , projectionCenterStored := some { x := 0, y := 0 }
  , views := some { primary := some viewPrimary, secondary := some viewSecondary }
  , sources := some { primary := some left.1, secondary := some right.1 }
  , textureStores := some { primary := some left.2.1, secondary := some right.2.1 }
  , layers := some { primary := some left.2.2, secondary := some right.2.2 }
  , hotspotContainer := some hc }

/-- The `eye` setter (Scene.ts lines 265-272): rebinds the hotspot
container's rectangle to the primary layer's rectangle for `left`, to the
secondary layer's for `right`, then forces a re-layout. -/
def setEye (layers : PairSet Layer) (hc : HotspotContainer) (eye : Eye) :
    Option HotspotContainer :=
  match eye with
  | Eye.left => (layers.primary).map (fun l => { hc with rect := l.rect })
  | Eye.right => (layers.secondary).map (fun l => { hc with rect := l.rect })

/-- The `projectionCenter` setter (Scene.ts lines 259-262): sets the primary
view's projection-center x-offset to `center.x` and the secondary view's to
`-center.x`.  It does not touch the stored `_projectionCenter` field. -/
def Scene.setProjectionCenter (s : Scene) (center : Vector4) : Option Scene := do
  let pv ← s.views
  let vp ← pv.primary
  let vs ← pv.secondary
  let vp₁ := { vp with projectionCenterX := center.x }
  let vs₁ := { vs with projectionCenterX := -center.x }
  some { s with views := some { primary := some vp₁, secondary := some vs₁ } }

/-- The `projectionCenter` getter (Scene.ts lines 295-297): reads only the
stored `_projectionCenter` field. -/
def Scene.projectionCenterGet (s : Scene) : Option Vector4 :=
  s.projectionCenterStored

/-- Result of an `onAttach` call: the scene and stage when the call returns,
the value assigned to the `eye` setter during the call, whether the `done`
callback was invoked synchronously, whether a tween was started, and whether
the zero-delay view-parameter reset was scheduled. -/
structure AttachResult where
  scene : Scene
  stage : Stage
  eyeSet : Eye
  doneCalledSync : Bool
  tweenStarted : Bool
  deferredViewReset : Bool
deriving DecidableEq, Repr

/-- `onAttach` (Scene.ts lines 111-157).  In panorama mode: primary view's
limiter reset to the panorama limiter, both views' projection-center
x-offsets set to 0, primary layer's rectangle replaced by a full-width
rectangle, eye set to `left`, and only the primary layer added to the stage.
In stereoscopic mode: primary view's limiter set to the stereoscopic
limiter, its projection-center x-offset set from the `projectionCenter`
getter, primary layer's rectangle replaced by a half-width rectangle, eye
set to the mode's dominant eye, and the secondary then the primary layer
added to the stage.  A zero-delay view-parameter reset is scheduled in every
case.  Without a transition the hotspot container is shown and `done` runs
synchronously; with a transition any stored tween is cancelled and a new one
is started (the detailed tween bookkeeping is modelled by `tweenStep`). -/
def Scene.onAttach (s : Scene) (stage : Stage) (mode : Mode)
    (hasTransition : Bool) : Option AttachResult := do
  let pv ← s.views
  let vp₀ ← pv.primary
  let vs₀ ← pv.secondary
  let pl ← s.layers
  let lp₀ ← pl.primary
  let ls ← pl.secondary
  let hc₀ ← s.hotspotContainer
  let branch ← match mode with
    | Mode.panorama =>
        let vp := { vp₀ with limiter := Scene.PANORAMA_LIMITER, projectionCenterX := 0 }
        let vs := { vs₀ with projectionCenterX := 0 }
        let lp := { lp₀ with rect := { relativeWidth := 1 } }
        (setEye { primary := some lp, secondary := some ls } hc₀ Eye.left).map
          (fun hc => (vp, vs, lp, hc,
            { stage with primaryMounted := true }, Eye.left))
    | Mode.stereoscopic dom => do
        let pc ← s.projectionCenterGet
        let vp := { vp₀ with limiter := Scene.STEREOSCOPIC_LIMITER, projectionCenterX := pc.x }
        let lp := { lp₀ with rect := { relativeWidth := 1/2 } }
        (setEye { primary := some lp, secondary := some ls } hc₀ dom).map
          (fun hc => (vp, vs₀, lp, hc,
            { stage with primaryMounted := true, secondaryMounted := true }, dom))
  let (vp, vs, lp, hc, stage₁, eyeSet) := branch
  let scene₁ := { s with
      views := some { primary := some vp, secondary := some vs }
    , layers := some { primary := some lp, secondary := some ls }
    , hotspotContainer := some hc }
  if hasTransition then
    some { scene := { scene₁ with cancelTweening := some 0 }, stage := stage₁
         , eyeSet := eyeSet, doneCalledSync := false, tweenStarted := true
         , deferredViewReset := true }
  else
    some { scene := { scene₁ with hotspotContainer := some { hc with visible := true } }
         , stage := stage₁, eyeSet := eyeSet, doneCalledSync := true
         , tweenStarted := false, deferredViewReset := true }

/-- The detach effect (Scene.ts lines 172-179 and 191-198): hide the hotspot
container, remove the primary layer from the stage (throws, `none`, if it is
not mounted), and remove the secondary layer only if the stage currently has
it.  `onDetatch` applies this effect synchronously when no transition is
given and at tween completion otherwise. -/
def Scene.detachEffect (s : Scene) (stage : Stage) : Option (Scene × Stage) := do
  let hc ← s.hotspotContainer
  let pl ← s.layers
  let _lp ← pl.primary
  let stage₁ ← stage.removeLayerPrimary
  let stage₂ :=
    if stage₁.hasLayerSecondary then { stage₁ with secondaryMounted := false }
    else stage₁
  some ({ s with hotspotContainer := some { hc with visible := false } }, stage₂)

/-- Result of an `onDetatch` call, analogous to `AttachResult`. -/
structure DetachResult where
  scene : Scene
  stage : Stage
  doneCalledSync : Bool
  tweenStarted : Bool
deriving DecidableEq, Repr

/-- `onDetatch` (Scene.ts lines 168-200): without a transition the detach
effect is applied synchronously and `done` runs before the call returns;
with a transition any stored tween is cancelled and a new one is started,
with the detach effect deferred to its completion (tween bookkeeping
modelled by `tweenStep`). -/
def Scene.onDetatch (s : Scene) (stage : Stage) (hasTransition : Bool) :
    Option DetachResult :=
  if hasTransition then
    some { scene := { s with cancelTweening := some 0 }, stage := stage
         , doneCalledSync := false, tweenStarted := true }
  else do
    let (s₁, stage₁) ← s.detachEffect stage
    some { scene := s₁, stage := stage₁, doneCalledSync := true
         , tweenStarted := false }

/-- What `onDestroy` destroys, in the order the destroy calls are issued. -/
inductive DestroyEvent
  | textureStore
  | view
  | layer
  | hotspotContainer
deriving DecidableEq, Repr

/-- `onDestroy` (Scene.ts lines 207-219): destroys, via `PairSet.pair`, both
texture stores, then both views, then both layers, then the hotspot
container, and finally clears the geometry, views, sources, texture stores,
layers and hotspot-container references to null.  Returns the trace of
destroy calls together with the final state; `none` models the throw when a
resource reference is already null. -/
def Scene.onDestroy (s : Scene) : Option (List DestroyEvent × Scene) := do
  let ts ← s.textureStores
  let pv ← s.views
  let pl ← s.layers
  let _hc ← s.hotspotContainer
  let trace :=
    ts.pair (fun _ => DestroyEvent.textureStore)
    ++ pv.pair (fun _ => DestroyEvent.view)
    ++ pl.pair (fun _ => DestroyEvent.layer)
    ++ [DestroyEvent.hotspotContainer]
  let s₁ := { s with geometry := none, views := none, sources := none, textureStores := none, layers := none, hotspotContainer := none }
  some (trace, s₁)

/-- The scene-descriptor shape consumed by `Scene.fromJSON` (the `ISceneData`
interface, Scene.ts lines 15-23).  The input's `initialViewParameters` is a
full 4-component vector; `fromJSON` reads only its yaw and pitch. -/
structure SceneDescriptor where
  id : String
  name : String
  levels : List ℚ
  faceSize : ℚ
  initialViewParameters : Vector4
  linkHotspots : List Hotspot
  infoHotspots : List Hotspot
deriving DecidableEq, Repr

/-- Modelled from the spec: `Level.fromJSON` (src/player/Entities/Level is
not under src/) reconstructs a level descriptor from its JSON form; levels
are opaque to this core and forwarded unchanged to the geometry builder. -/
def Level.fromJSON (l : ℚ) : ℚ := l

/-- Modelled from the spec: `LinkHotspot.fromJSON` / `InfoHotspot.fromJSON`
(their files are not under src/) reconstruct a hotspot descriptor carrying
an anchor position and a renderable node reference. -/
def Hotspot.fromJSON (h : Hotspot) : Hotspot := h

/-- `Scene.fromJSON` on a pre-parsed descriptor (Scene.ts lines 323-336):
copies id and name, maps the levels and hotspots through their `fromJSON`
reconstructors, and builds `initialViewParameters` as
`new Vector4(yaw, pitch, 0, 90)` — the third and fourth components are the
constants 0 and 90 regardless of the input vector's roll and fov.  The
constructor is then applied (`Scene.apply(scene)`), which initializes the
sources, texture stores and layers to empty pairs. -/
def Scene.fromJSON (d : SceneDescriptor) : Scene :=
  { id := d.id
  , name := d.name
  , levels := d.levels.map Level.fromJSON
  , faceSize := d.faceSize
  , initialViewParameters :=
      { x := d.initialViewParameters.yaw, y := d.initialViewParameters.pitch
      , z := 0, w := 90 }
  , linkHotspots := d.linkHotspots.map Hotspot.fromJSON
  , infoHotspots := d.infoHotspots.map Hotspot.fromJSON }

/-!
Tween bookkeeping (Scene.ts lines 143-156 and 182-199).  Transitions started
by `onAttach`/`onDetatch` with a transition callback are timed interpolations
created by the external tween utility, which returns a cancellation function
stored in `_cancelTweening`.  The state below tracks, over the lifetime of a
scene, the tweens ever started (numbered 0, 1, 2, ... in creation order),
which of them were cancelled, which completed (their completion callback
fired), and which one the scene's `_cancelTweening` handle currently refers
to.  Two kinds of events drive it:

- `start`: an `onAttach` or `onDetatch` call with a transition callback.  It
  first runs the stored cancellation handle if there is one (cancelling that
  tween and clearing the handle, lines 144-147 / 183-186), then starts a
  fresh tween and stores its handle (lines 150 / 189).
- `finish i`: tween `i`'s duration elapses.  This can only happen for a tween
  that was started, was not cancelled (cancellation stops the interpolation
  loop, so its completion callback never runs), and has not already
  completed.  Its completion callback clears `_cancelTweening` (lines 153 /
  192) and is recorded in `completed`.
-/

/-- Tween bookkeeping state for a scene. -/
structure TweenState where
  nextId : ℕ
  handle : Option ℕ
  cancelled : List ℕ
  completed : List ℕ
deriving DecidableEq, Repr

/-- The initial tween state: no tween ever started, no stored handle. -/
def initTween : TweenState := { nextId := 0, handle := none, cancelled := [], completed := [] }

/-- Events driving the tween bookkeeping. -/
inductive TweenEvent
  | start
  | finish (i : ℕ)
deriving DecidableEq, Repr

/-- One step of the tween bookkeeping (see the section comment above). -/
def tweenStep (s : TweenState) (e : TweenEvent) : TweenState :=
  match e with
  | TweenEvent.start =>
      let s₁ :=
        match s.handle with
        | some i => { s with cancelled := i :: s.cancelled, handle := none }
        | none => s
      { s₁ with handle := some s₁.nextId, nextId := s₁.nextId + 1 }
  | TweenEvent.finish i =>
      if i < s.nextId ∧ i ∉ s.cancelled ∧ i ∉ s.completed then
        { s with completed := i :: s.completed, handle := none }
      else s

/-- Runs a list of tween events from a given state. -/
def runTweenFrom (s : TweenState) (es : List TweenEvent) : TweenState :=
  es.foldl tweenStep s

/-- Runs a list of tween events from the initial state. -/
def runTween (es : List TweenEvent) : TweenState :=
  runTweenFrom initTween es

/-!
Sample inputs used by witnesses and counterexamples: the example scenario of
the spec (id "hall", face size 1024, one level, yaw 0, pitch 0, no
hotspots), with a nonzero roll and fov in the raw descriptor vector.
-/

/-- A concrete scene descriptor. -/
def sampleDescriptor : SceneDescriptor :=
  { id := "hall"
  , name := "Hall"
  , levels := [1024]
  , faceSize := 1024
  , initialViewParameters := { x := 0, y := 0, z := 5, w := 120 }
  , linkHotspots := []
  , infoHotspots := [] }

/-- The scene deserialized from the sample descriptor. -/
def sampleScene : Scene := Scene.fromJSON sampleDescriptor

/-- The sample scene after `onCreate` with no configured stage path. -/
def sampleCreated : Scene := sampleScene.onCreate ""

/-- The primary (left-eye) view of a scene, when set. -/
def Scene.primaryView (s : Scene) : Option View := s.views.bind PairSet.primary

/-- The secondary (right-eye) view of a scene, when set. -/
def Scene.secondaryView (s : Scene) : Option View := s.views.bind PairSet.secondary

/-- The primary (left-eye) layer of a scene, when set. -/
def Scene.primaryLayer (s : Scene) : Option Layer := s.layers.bind PairSet.primary

/-- The invariant of the tween bookkeeping: cancelled and completed tween
numbers were actually started, and the stored handle refers to a started
tween whose completion callback has not fired. -/
def TweenInv (s : TweenState) : Prop :=
  (∀ j ∈ s.cancelled, j < s.nextId) ∧
  (∀ j ∈ s.completed, j < s.nextId) ∧
  (∀ j, s.handle = some j → j < s.nextId ∧ j ∉ s.completed)

/-!
Theorems.
-/

/-- Claim C1 (amended): `onCreate` builds exactly two views from the scene's
`initialViewParameters`, applying the panorama (wide-FOV) limiter to the
primary view and the stereoscopic (narrow-FOV) limiter to the secondary
view. -/
theorem onCreate_views_limiters (s : Scene) (fsPath : String) :
    (s.onCreate fsPath).views = some
      { primary := some { limiter := Limiter.panorama, projectionCenterX := 0, parameters := s.initialViewParameters }
      , secondary := some { limiter := Limiter.stereoscopic, projectionCenterX := 0, parameters := s.initialViewParameters } } :=
  rfl

/-- Claim C1 (counterexample to the claim as stated): on the sample scene,
`onCreate` gives the secondary view a limiter that is not the panorama
limiter. -/
theorem onCreate_secondary_not_panorama :
    ∃ v, sampleCreated.secondaryView = some v ∧ v.limiter ≠ Limiter.panorama := by
  refine ⟨{ limiter := Limiter.stereoscopic, projectionCenterX := 0, parameters := { x := 0, y := 0, z := 0, w := 90 } }, ?_, ?_⟩
  · rfl
  · decide

/-- Claim C2 (code evaluated at the failing inputs): with no configured
stage path (empty `FS.path` result) the resolved base path is `tiles`, not
the documented default `assets/tiles`; with a configured stage path the base
path is the fixed default `assets/tiles` instead of one derived from the
configured path, and the per-eye tile and preview URL templates are built
from that inverted base. -/
theorem createLayer_basePath_inverted :
    createLayerBasePath "" = "tiles" ∧
    createLayerBasePath "scenes/main/" = "assets/tiles" ∧
    (createLayerSource "" "hall" Eye.left).tileUrl = "tiles/hall/left/{z}/{f}/{y}/{x}.jpg" ∧
    (createLayerSource "scenes/main/" "hall" Eye.right).previewUrl = "assets/tiles/hall/right/preview.jpg" :=
  ⟨rfl, rfl, rfl, rfl⟩

/-- Claim C3: for every center vector (including zero and negative x), the
`projectionCenter` setter sets the primary view's projection-center x-offset
to `+x` and the secondary view's to `-x`. -/
theorem projectionCenter_set_signs (s : Scene) (c : Vector4)
    (pv : PairSet View) (vp vs : View)
    (hv : s.views = some pv) (hp : pv.primary = some vp) (hs : pv.secondary = some vs) :
    ∃ s₁, s.setProjectionCenter c = some s₁ ∧
      (s₁.primaryView).map View.projectionCenterX = some c.x ∧
      (s₁.secondaryView).map View.projectionCenterX = some (-c.x) := by
  refine ⟨{ s with views := some { primary := some { vp with projectionCenterX := c.x }, secondary := some { vs with projectionCenterX := -c.x } } }, ?_, ?_, ?_⟩
  · simp [Scene.setProjectionCenter, hv, hp, hs]
  · simp [Scene.primaryView]
  · simp [Scene.secondaryView]

/-- Witness for C3 at a concrete scene and center (3, 1). -/
theorem projectionCenter_set_signs_witness :
    ∃ s₁, sampleCreated.setProjectionCenter { x := 3, y := 1 } = some s₁ ∧
      (s₁.primaryView).map View.projectionCenterX = some 3 ∧
      (s₁.secondaryView).map View.projectionCenterX = some (-3) :=
  projectionCenter_set_signs sampleCreated { x := 3, y := 1 } _ _ _ rfl rfl rfl

/-- Claim C9: the `projectionCenter` setter mutates only the live views and
leaves the stored `_projectionCenter` field unchanged, so after assigning
any new center the getter still returns the previously stored value. -/
theorem projectionCenter_set_get_unchanged (s : Scene) (c newCenter : Vector4)
    (pv : PairSet View) (vp vs : View)
    (hv : s.views = some pv) (hp : pv.primary = some vp) (hs : pv.secondary = some vs)
    (hstored : s.projectionCenterGet = some c) :
    ∃ s₁, s.setProjectionCenter newCenter = some s₁ ∧
      s₁.projectionCenterGet = some c := by
  refine ⟨{ s with views := some { primary := some { vp with projectionCenterX := newCenter.x }, secondary := some { vs with projectionCenterX := -newCenter.x } } }, ?_, ?_⟩
  · simp [Scene.setProjectionCenter, hv, hp, hs]
  · exact hstored

/-- Witness for C9: the sample scene stores (0, 0); after assigning center
(7, 2) the getter still returns (0, 0). -/
theorem projectionCenter_set_get_unchanged_witness :
    ∃ s₁, sampleCreated.setProjectionCenter { x := 7, y := 2 } = some s₁ ∧
      s₁.projectionCenterGet = some { x := 0, y := 0 } :=
  projectionCenter_set_get_unchanged sampleCreated { x := 0, y := 0 } { x := 7, y := 2 } _ _ _ rfl rfl rfl rfl

/-- Claim C10: for every descriptor and any roll and fov carried by the
input's view-parameter vector, `fromJSON` builds `initialViewParameters`
with the descriptor's yaw and pitch as its first two components and the
constants 0 (roll) and 90 (field-of-view) as its last two. -/
theorem fromJSON_initialViewParameters (d : SceneDescriptor) (roll fov : ℚ) :
    (Scene.fromJSON { d with initialViewParameters := { d.initialViewParameters with z := roll, w := fov } }).initialViewParameters
      = { x := d.initialViewParameters.yaw, y := d.initialViewParameters.pitch, z := 0, w := 90 } :=
  rfl

/-- Claim C4: attaching in stereoscopic mode mounts both the primary and the
secondary layer on the display surface; attaching in panorama mode mounts
only the primary layer (the secondary layer's mounting is untouched), widens
the primary layer to full frame width (relativeWidth 1), resets both views'
projection-center x-offsets to 0, and forces the active eye to left. -/
theorem onAttach_mode_mounting (s : Scene) (stage : Stage)
    (pv : PairSet View) (vp vs : View) (pl : PairSet Layer) (lp ls : Layer)
    (hc : HotspotContainer) (pc : Vector4) (ht : Bool)
    (hv : s.views = some pv) (hvp : pv.primary = some vp) (hvs : pv.secondary = some vs)
    (hl : s.layers = some pl) (hlp : pl.primary = some lp) (hls : pl.secondary = some ls)
    (hh : s.hotspotContainer = some hc)
    (hpc : s.projectionCenterStored = some pc) :
    (∀ dom, ∃ r, s.onAttach stage (Mode.stereoscopic dom) ht = some r ∧
        r.stage.primaryMounted = true ∧ r.stage.secondaryMounted = true) ∧
    (∃ r, s.onAttach stage Mode.panorama ht = some r ∧
        r.stage.primaryMounted = true ∧
        r.stage.secondaryMounted = stage.secondaryMounted ∧
        (r.scene.primaryLayer).map (fun l => l.rect.relativeWidth) = some 1 ∧
        (r.scene.primaryView).map View.projectionCenterX = some 0 ∧
        (r.scene.secondaryView).map View.projectionCenterX = some 0 ∧
        r.eyeSet = Eye.left) := by
  constructor
  · intro dom
    cases dom <;> cases ht <;>
      simp [Scene.onAttach, hv, hvp, hvs, hl, hlp, hls, hh, hpc, setEye,
        Scene.projectionCenterGet]
  · cases ht <;>
      simp [Scene.onAttach, hv, hvp, hvs, hl, hlp, hls, hh, setEye,
        Scene.primaryLayer, Scene.primaryView, Scene.secondaryView]

/-- Witness for C4 on the sample scene, an empty stage, a right dominant
eye, and no transition. -/
theorem onAttach_mode_mounting_witness :
    (∃ r, sampleCreated.onAttach Stage.empty (Mode.stereoscopic Eye.right) false = some r ∧
        r.stage.primaryMounted = true ∧ r.stage.secondaryMounted = true) ∧
    (∃ r, sampleCreated.onAttach Stage.empty Mode.panorama false = some r ∧
        r.stage.primaryMounted = true ∧
        r.stage.secondaryMounted = Stage.empty.secondaryMounted ∧
        (r.scene.primaryLayer).map (fun l => l.rect.relativeWidth) = some 1 ∧
        (r.scene.primaryView).map View.projectionCenterX = some 0 ∧
        (r.scene.secondaryView).map View.projectionCenterX = some 0 ∧
        r.eyeSet = Eye.left) :=
  ⟨(onAttach_mode_mounting sampleCreated Stage.empty _ _ _ _ _ _ _ _ false
      rfl rfl rfl rfl rfl rfl rfl rfl).1 Eye.right,
   (onAttach_mode_mounting sampleCreated Stage.empty _ _ _ _ _ _ _ _ false
      rfl rfl rfl rfl rfl rfl rfl rfl).2⟩

/-- Claim C5: for every scene holding its created resources, `onAttach` with
no transition callback shows the hotspot container, invokes `done`
synchronously before returning, and starts no tween. -/
theorem onAttach_no_transition_sync (s : Scene) (stage : Stage) (mode : Mode)
    (pv : PairSet View) (vp vs : View) (pl : PairSet Layer) (lp ls : Layer)
    (hc : HotspotContainer) (pc : Vector4)
    (hv : s.views = some pv) (hvp : pv.primary = some vp) (hvs : pv.secondary = some vs)
    (hl : s.layers = some pl) (hlp : pl.primary = some lp) (hls : pl.secondary = some ls)
    (hh : s.hotspotContainer = some hc)
    (hpc : s.projectionCenterStored = some pc) :
    ∃ r, s.onAttach stage mode false = some r ∧
      r.doneCalledSync = true ∧ r.tweenStarted = false ∧
      (r.scene.hotspotContainer).map HotspotContainer.visible = some true := by
  cases mode with
  | panorama =>
      simp [Scene.onAttach, hv, hvp, hvs, hl, hlp, hls, hh, setEye]
  | stereoscopic dom =>
      cases dom <;>
        simp [Scene.onAttach, hv, hvp, hvs, hl, hlp, hls, hh, hpc, setEye,
          Scene.projectionCenterGet]

/-- Witness for C5 on the sample scene in panorama mode. -/
theorem onAttach_no_transition_sync_witness :
    ∃ r, sampleCreated.onAttach Stage.empty Mode.panorama false = some r ∧
      r.doneCalledSync = true ∧ r.tweenStarted = false ∧
      (r.scene.hotspotContainer).map HotspotContainer.visible = some true :=
  onAttach_no_transition_sync sampleCreated Stage.empty Mode.panorama _ _ _ _ _ _ _ _
    rfl rfl rfl rfl rfl rfl rfl rfl

/-- Claim C6: the detach effect applied by `onDetatch` (synchronously
without a transition, at tween completion with one) always unmounts the
primary layer, unmounts the secondary layer only when the stage currently
has it (so a detach after a panorama-mode attach does not touch the
never-mounted secondary layer and does not throw), and changes nothing in
the scene but the hotspot container's visibility. -/
theorem onDetatch_unmount (s : Scene) (stage : Stage)
    (pl : PairSet Layer) (lp : Layer) (hc : HotspotContainer)
    (hl : s.layers = some pl) (hlp : pl.primary = some lp)
    (hh : s.hotspotContainer = some hc)
    (hm : stage.primaryMounted = true) :
    ∃ r, s.onDetatch stage false = some r ∧
      r.stage.primaryMounted = false ∧ r.stage.secondaryMounted = false ∧
      r.scene = { s with hotspotContainer := some { hc with visible := false } } ∧
      r.doneCalledSync = true := by
  cases hsm : stage.secondaryMounted <;>
    simp [Scene.onDetatch, Scene.detachEffect, hl, hlp, hh,
      Stage.removeLayerPrimary, Stage.hasLayerSecondary, hm, hsm]

/-- Witness for C6: detaching the sample scene from a stage on which only
the primary layer is mounted (the situation after a panorama-mode attach)
succeeds and leaves both layers unmounted. -/
theorem onDetatch_unmount_witness :
    ∃ r, sampleCreated.onDetatch { primaryMounted := true, secondaryMounted := false } false = some r ∧
      r.stage.primaryMounted = false ∧ r.stage.secondaryMounted = false ∧
      r.scene = { sampleCreated with hotspotContainer := some { visible := false, rect := { relativeWidth := 1/2, relativeX := some 0 }, hotspots := [] } } ∧
      r.doneCalledSync = true :=
  onDetatch_unmount sampleCreated { primaryMounted := true, secondaryMounted := false }
    _ _ _ rfl rfl rfl rfl

/-- Claim C8: `onDestroy` issues the destroy calls in the order both texture
stores, both views, both layers, then the hotspot container, and afterwards
clears the geometry, views, sources, texture-store, layer and
hotspot-container references to null. -/
theorem onDestroy_order_and_clear (s : Scene)
    (ts : PairSet TextureStore) (t1 t2 : TextureStore)
    (pv : PairSet View) (v1 v2 : View)
    (pl : PairSet Layer) (l1 l2 : Layer) (hc : HotspotContainer)
    (hts : s.textureStores = some ts) (ht1 : ts.primary = some t1) (ht2 : ts.secondary = some t2)
    (hv : s.views = some pv) (hv1 : pv.primary = some v1) (hv2 : pv.secondary = some v2)
    (hl : s.layers = some pl) (hl1 : pl.primary = some l1) (hl2 : pl.secondary = some l2)
    (hh : s.hotspotContainer = some hc) :
    s.onDestroy = some
      ([DestroyEvent.textureStore, DestroyEvent.textureStore, DestroyEvent.view,
        DestroyEvent.view, DestroyEvent.layer, DestroyEvent.layer, DestroyEvent.hotspotContainer],
       { s with geometry := none, views := none, sources := none, textureStores := none, layers := none, hotspotContainer := none }) := by
  simp [Scene.onDestroy, hts, hv, hl, hh, PairSet.pair, PairSet.toList,
    ht1, ht2, hv1, hv2, hl1, hl2]

/-- Witness for C8 on the sample scene. -/
theorem onDestroy_order_and_clear_witness :
    sampleCreated.onDestroy = some
      ([DestroyEvent.textureStore, DestroyEvent.textureStore, DestroyEvent.view,
        DestroyEvent.view, DestroyEvent.layer, DestroyEvent.layer, DestroyEvent.hotspotContainer],
       { sampleCreated with geometry := none, views := none, sources := none, textureStores := none, layers := none, hotspotContainer := none }) :=
  onDestroy_order_and_clear sampleCreated _ _ _ _ _ _ _ _ _ _
    rfl rfl rfl rfl rfl rfl rfl rfl rfl rfl

/-- Shape of a `start` step when no handle is stored. -/
theorem tweenStep_start_none (s : TweenState) (h : s.handle = none) :
    tweenStep s TweenEvent.start = { s with handle := some s.nextId, nextId := s.nextId + 1 } := by
  simp [tweenStep, h]

/-- Shape of a `start` step when a handle is stored: the stored tween is
cancelled first, then the fresh tween's handle is stored. -/
theorem tweenStep_start_some (s : TweenState) (i : ℕ) (h : s.handle = some i) :
    tweenStep s TweenEvent.start = { s with cancelled := i :: s.cancelled, handle := some s.nextId, nextId := s.nextId + 1 } := by
  simp [tweenStep, h]

/-- Shape of a `finish` step for a live tween. -/
theorem tweenStep_finish_pos (s : TweenState) (i : ℕ)
    (hg : i < s.nextId ∧ i ∉ s.cancelled ∧ i ∉ s.completed) :
    tweenStep s (TweenEvent.finish i) = { s with completed := i :: s.completed, handle := none } := by
  simp only [tweenStep, if_pos hg]

/-- Shape of a `finish` step for a tween that is not live. -/
theorem tweenStep_finish_neg (s : TweenState) (i : ℕ)
    (hg : ¬(i < s.nextId ∧ i ∉ s.cancelled ∧ i ∉ s.completed)) :
    tweenStep s (TweenEvent.finish i) = s := by
  simp only [tweenStep, if_neg hg]

/-- The tween-bookkeeping invariant holds initially. -/
theorem tweenInv_init : TweenInv initTween := by
  refine ⟨?_, ?_, ?_⟩ <;> intro j hj <;> simp [initTween] at hj

/-- The tween-bookkeeping invariant is preserved by every event. -/
theorem tweenInv_step (s : TweenState) (e : TweenEvent) (h : TweenInv s) :
    TweenInv (tweenStep s e) := by
  obtain ⟨hc, hd, hh⟩ := h
  cases e with
  | start =>
      cases hhandle : s.handle with
      | none =>
          rw [tweenStep_start_none s hhandle]
          refine ⟨?_, ?_, ?_⟩
          · intro j hj
            exact Nat.lt_succ_of_lt (hc j hj)
          · intro j hj
            exact Nat.lt_succ_of_lt (hd j hj)
          · intro j hj
            simp only [Option.some.injEq] at hj
            subst hj
            exact ⟨Nat.lt_succ_self _, fun hmem => Nat.lt_irrefl _ (hd _ hmem)⟩
      | some i =>
          rw [tweenStep_start_some s i hhandle]
          refine ⟨?_, ?_, ?_⟩
          · intro j hj
            rcases List.mem_cons.mp hj with hj | hj
            · subst hj
              exact Nat.lt_succ_of_lt (hh _ hhandle).1
            · exact Nat.lt_succ_of_lt (hc j hj)
          · intro j hj
            exact Nat.lt_succ_of_lt (hd j hj)
          · intro j hj
            simp only [Option.some.injEq] at hj
            subst hj
            exact ⟨Nat.lt_succ_self _, fun hmem => Nat.lt_irrefl _ (hd _ hmem)⟩
  | finish i =>
      by_cases hg : i < s.nextId ∧ i ∉ s.cancelled ∧ i ∉ s.completed
      · rw [tweenStep_finish_pos s i hg]
        refine ⟨?_, ?_, ?_⟩
        · intro j hj
          exact hc j hj
        · intro j hj
          rcases List.mem_cons.mp hj with hj | hj
          · subst hj; exact hg.1
          · exact hd j hj
        · intro j hj
          exact absurd hj (by simp)
      · rw [tweenStep_finish_neg s i hg]
        exact ⟨hc, hd, hh⟩

/-- The tween-bookkeeping invariant holds after any run of events. -/
theorem tweenInv_run (s : TweenState) (es : List TweenEvent) (h : TweenInv s) :
    TweenInv (runTweenFrom s es) := by
  induction es generalizing s with
  | nil => exact h
  | cons e es ih => exact ih _ (tweenInv_step s e h)

/-- A cancelled tween stays cancelled and, if its completion callback has
not fired, it never fires during any later run of events. -/
theorem tween_cancelled_stays (es : List TweenEvent) (s : TweenState) (i : ℕ)
    (hmem : i ∈ s.cancelled) (hnc : i ∉ s.completed) :
    i ∈ (runTweenFrom s es).cancelled ∧ i ∉ (runTweenFrom s es).completed := by
  induction es generalizing s with
  | nil => exact ⟨hmem, hnc⟩
  | cons e es ih =>
      refine ih (tweenStep s e) ?_ ?_
      · cases e with
        | start =>
            cases hhandle : s.handle with
            | none => rw [tweenStep_start_none s hhandle]; exact hmem
            | some j =>
                rw [tweenStep_start_some s j hhandle]
                exact List.mem_cons_of_mem j hmem
        | finish j =>
            by_cases hg : j < s.nextId ∧ j ∉ s.cancelled ∧ j ∉ s.completed
            · rw [tweenStep_finish_pos s j hg]; exact hmem
            · rw [tweenStep_finish_neg s j hg]; exact hmem
      · cases e with
        | start =>
            cases hhandle : s.handle with
            | none => rw [tweenStep_start_none s hhandle]; exact hnc
            | some j => rw [tweenStep_start_some s j hhandle]; exact hnc
        | finish j =>
            by_cases hg : j < s.nextId ∧ j ∉ s.cancelled ∧ j ∉ s.completed
            · rw [tweenStep_finish_pos s j hg]
              intro hj
              rcases List.mem_cons.mp hj with hj | hj
              · subst hj
                exact hg.2.1 hmem
              · exact hnc hj
            · rw [tweenStep_finish_neg s j hg]; exact hnc

/-- Claim C7: whenever `onAttach` or `onDetatch` is called with a transition
callback while a previous transition's cancellation handle is stored, the
previous transition is cancelled and its handle replaced before the new
interpolation starts, and the cancelled transition's completion callback
never fires during any later sequence of events. -/
theorem transition_cancel_exclusive (es : List TweenEvent) (i : ℕ)
    (h : (runTween es).handle = some i) :
    i ∈ (tweenStep (runTween es) TweenEvent.start).cancelled ∧
    (tweenStep (runTween es) TweenEvent.start).handle ≠ some i ∧
    ∀ es₂, i ∉ (runTweenFrom (tweenStep (runTween es) TweenEvent.start) es₂).completed := by
  have hinv : TweenInv (runTween es) := tweenInv_run initTween es tweenInv_init
  obtain ⟨hlt, hncomp⟩ := hinv.2.2 i h
  rw [tweenStep_start_some _ i h]
  refine ⟨List.mem_cons_self _ _, ?_, ?_⟩
  · intro heq
    simp only [Option.some.injEq] at heq
    exact Nat.lt_irrefl i (heq ▸ hlt)
  · intro es₂
    refine (tween_cancelled_stays es₂ _ i ?_ ?_).2
    · exact List.mem_cons_self _ _
    · exact hncomp

/-- Witness for C7: after one started transition (tween 0, handle stored),
starting a second transition cancels tween 0, and tween 0's completion
callback does not fire even when its duration later elapses. -/
theorem transition_cancel_exclusive_witness :
    (runTween [TweenEvent.start]).handle = some 0 ∧
    0 ∈ (tweenStep (runTween [TweenEvent.start]) TweenEvent.start).cancelled ∧
    0 ∉ (runTweenFrom (tweenStep (runTween [TweenEvent.start]) TweenEvent.start) [TweenEvent.finish 0]).completed :=
  ⟨rfl, (transition_cancel_exclusive [TweenEvent.start] 0 rfl).1,
    (transition_cancel_exclusive [TweenEvent.start] 0 rfl).2.2 [TweenEvent.finish 0]⟩

end VRPlayer
